import Mathlib

/-!
Verification of the Parkinson movement detector (`src/main.cpp`).

The pipeline is embedded shallowly over `ℚ`: the float constants that appear
in the source (`0.5f`, `3.0f`, `5.0f`, `7.0f`, `8.0f`, `52.0f/256.0f`) are all
exactly representable, and `1.2f` and `0.0001f` are taken at their intended
rational values `6/5` and `1/10000`.  Band-energy extraction, the classifier
rule engine, DC removal, the ring-buffer cursor, and the raw register-read
path are each translated directly from the corresponding lines of the source.
-/

namespace Parkinson

/-- `#define SAMPLE_RATE 52` (main.cpp line 63). -/
def SAMPLE_RATE : ℕ := 52

/-- `#define WINDOW_SEC 3` (main.cpp line 64). -/
def WINDOW_SEC : ℕ := 3

/-- `#define RAW_SAMPLES (SAMPLE_RATE * WINDOW_SEC)` = 156 (main.cpp line 65). -/
def RAW_SAMPLES : ℕ := SAMPLE_RATE * WINDOW_SEC

/-- `#define FFT_SIZE 256` (main.cpp line 66). -/
def FFT_SIZE : ℕ := 256

/-- `float hz_per_bin = (float)SAMPLE_RATE / FFT_SIZE` (line 156); 52/256 = 13/64. -/
def hz_per_bin : ℚ := (SAMPLE_RATE : ℚ) / (FFT_SIZE : ℚ)

/-- `float f = k * hz_per_bin` (lines 160 and 180). -/
def binFreq (k : ℕ) : ℚ := (k : ℚ) * hz_per_bin

/-- `f >= 0.5f && f <= 3.0f` — the walk band condition (line 161). -/
def inWalkBand (f : ℚ) : Bool := decide (1 / 2 ≤ f) && decide (f ≤ 3)

/-- `f > 3.0f && f <= 8.0f` — the fog-jitter band condition (line 162). -/
def inFogBand (f : ℚ) : Bool := decide (3 < f) && decide (f ≤ 8)

/-- `f >= 3.0f && f <= 5.0f` — the tremor band condition (line 181). -/
def inTremorBand (f : ℚ) : Bool := decide (3 ≤ f) && decide (f ≤ 5)

/-- `f > 5.0f && f <= 7.0f` — the dyskinesia band condition (line 182). -/
def inDyskBand (f : ℚ) : Bool := decide (5 < f) && decide (f ≤ 7)

/-- The accumulation loop `for (int k=1; k < FFT_SIZE/2; k++) ... walk += fft_mag[k]`
(lines 159-163), as a sum over the bin indices the loop visits. -/
def walk_energy (mag : ℕ → ℚ) : ℚ :=
  ∑ k ∈ Finset.Ico 1 (FFT_SIZE / 2), if inWalkBand (binFreq k) then mag k else 0

/-- `fog += fft_mag[k]` over the same loop (lines 159-163). -/
def fog_energy (mag : ℕ → ℚ) : ℚ :=
  ∑ k ∈ Finset.Ico 1 (FFT_SIZE / 2), if inFogBand (binFreq k) then mag k else 0

/-- `tremor += fft_mag[k]` over the gyro loop (lines 179-183). -/
def tremor_energy (mag : ℕ → ℚ) : ℚ :=
  ∑ k ∈ Finset.Ico 1 (FFT_SIZE / 2), if inTremorBand (binFreq k) then mag k else 0

/-- `dysk += fft_mag[k]` over the gyro loop (lines 179-183). -/
def dysk_energy (mag : ℕ → ℚ) : ℚ :=
  ∑ k ∈ Finset.Ico 1 (FFT_SIZE / 2), if inDyskBand (binFreq k) then mag k else 0

/-- The `0.0001f` guard added to the divisor of the fog ratio (line 185). -/
def FOG_EPS : ℚ := 1 / 10000

/-- The walk threshold `5.0f` of `walk < 5.0f` (line 190). -/
def WALK_THRESH : ℚ := 5

/-- The tremor threshold `5.0f` of `tremor > 5.0f` (line 188). -/
def TREMOR_THRESH : ℚ := 5

/-- The dyskinesia threshold `5.0f` of `dysk > 5.0f` (line 189). -/
def DYSK_THRESH : ℚ := 5

/-- The fog-ratio threshold `3.0f` of `fog_ratio > 3.0f` (line 193). -/
def FOG_RATIO_THRESH : ℚ := 3

/-- The dominance margin `1.2f` of `tremor > dysk * 1.2f` (lines 205, 208). -/
def DOMINANCE : ℚ := 6 / 5

/-- The four per-window band energies `{walk, fog, tremor, dysk}` (lines 158, 178). -/
structure BandEnergySet where
  walk : ℚ
  fog : ℚ
  tremor : ℚ
  dysk : ℚ
deriving DecidableEq

/-- `float fog_ratio = fog / (walk + 0.0001f)` (line 185). -/
def fog_ratio (e : BandEnergySet) : ℚ := e.fog / (e.walk + FOG_EPS)

/-- `bool tremor_present = tremor > 5.0f` (line 188). -/
def tremor_present (e : BandEnergySet) : Bool := decide (TREMOR_THRESH < e.tremor)

/-- `bool dysk_present = dysk > 5.0f` (line 189). -/
def dysk_present (e : BandEnergySet) : Bool := decide (DYSK_THRESH < e.dysk)

/-- `bool low_walk = walk < 5.0f` (line 190). -/
def low_walk (e : BandEnergySet) : Bool := decide (e.walk < WALK_THRESH)

/-- `bool freezing = false; if (fog_ratio > 3.0f && low_walk && !dysk_present)
freezing = true;` (lines 192-194). -/
def freezing (e : BandEnergySet) : Bool :=
  decide (FOG_RATIO_THRESH < fog_ratio e) && low_walk e && !dysk_present e

/-- The three LED outputs `{led_tremor, led_dysk, led_freeze}` of one window
(lines 196-210), as booleans. -/
structure ClassificationState where
  tremorFlag : Bool
  dyskinesiaFlag : Bool
  freezingFlag : Bool
deriving DecidableEq

/-- The classifier rule engine (lines 196-210): LEDs are cleared, then the
freezing branch sets `led_freeze` and lets `led_tremor` track `tremor_present`
while holding `led_dysk` off; the non-freezing branch applies the two
dominance rules. -/
def classify (e : BandEnergySet) : ClassificationState :=
  if freezing e then
    ⟨tremor_present e, false, true⟩
  else
    ⟨low_walk e && tremor_present e && decide (e.dysk * DOMINANCE < e.tremor),
     low_walk e && dysk_present e && decide (e.tremor * DOMINANCE < e.dysk),
     false⟩

/-- The window mean `mean /= RAW_SAMPLES` after summing (lines 144-146). -/
def mean (buf : Fin RAW_SAMPLES → ℚ) : ℚ := (∑ i, buf i) / (RAW_SAMPLES : ℚ)

/-- DC removal `fft_in[i] = accel_buf[i] - mean` (lines 148-149). -/
def detrend (buf : Fin RAW_SAMPLES → ℚ) : Fin RAW_SAMPLES → ℚ :=
  fun i => buf i - mean buf

/-- `buf_idx++; if (buf_idx >= RAW_SAMPLES) buf_idx = 0;` (lines 135-136). -/
def nextIdx (i : ℕ) : ℕ := if RAW_SAMPLES ≤ i + 1 then 0 else i + 1

/-- The mutable ingest state: the two ring buffers and the shared write
cursor (lines 68-71). -/
structure IngestState where
  accel_buf : ℕ → ℚ
  gyro_buf : ℕ → ℚ
  buf_idx : ℕ

/-- One sampling tick (lines 133-136): store the two magnitudes at the write
cursor and advance it.  The magnitudes are passed in already reduced from the
axis reads, as computed on lines 119-131. -/
def ingestStep (st : IngestState) (amag gmag : ℚ) : IngestState :=
  ⟨Function.update st.accel_buf st.buf_idx amag,
   Function.update st.gyro_buf st.buf_idx gmag,
   nextIdx st.buf_idx⟩

/-- The outcome of one `read_reg` call (lines 36-42): whether the I2C
transfer succeeded, and the byte left in the output variable (on failure this
is whatever the variable already held — the caller cannot tell). -/
structure RegRead where
  ok : Bool
  val : ℕ

/-- The `(int16_t)` cast of a 16-bit bit pattern (line 48). -/
def toInt16 (n : ℕ) : ℤ :=
  if n % 65536 < 32768 then ((n % 65536 : ℕ) : ℤ) else ((n % 65536 : ℕ) : ℤ) - 65536

/-- `read_axis` (lines 44-49): read the low and high bytes and combine them
as `(int16_t)((hi << 8) | lo)`.  The boolean results of the two `read_reg`
calls are discarded — only the byte values enter the result. -/
def read_axis (env : ℕ → RegRead) (low_addr : ℕ) : ℤ :=
  toInt16 ((((env (low_addr + 1)).val % 256) <<< 8) ||| ((env low_addr).val % 256))

/-- An environment in which every register read reports success but returns
the same bytes. -/
def forceOk (env : ℕ → RegRead) : ℕ → RegRead :=
  fun a => ⟨true, (env a).val⟩

/-- C1: for every BandEnergySet of four nonnegative band energies, the
classifier never emits freezing and the dyskinesia flag together: whenever
the freezing rule fires, the dyskinesia output is false. -/
theorem classify_freeze_vetoes_dysk (e : BandEnergySet)
    (hw : 0 ≤ e.walk) (hf : 0 ≤ e.fog) (ht : 0 ≤ e.tremor) (hd : 0 ≤ e.dysk) :
    (classify e).freezingFlag = true → (classify e).dyskinesiaFlag = false := by
  unfold classify
  split <;> simp

/-- Witness for C1 at the concrete energy set (0, 1, 0, 0), whose window is
classified as freezing. -/
theorem classify_freeze_vetoes_dysk_witness :
    (classify ⟨0, 1, 0, 0⟩).dyskinesiaFlag = false :=
  classify_freeze_vetoes_dysk ⟨0, 1, 0, 0⟩ (by norm_num) (by norm_num)
    (by norm_num) (by norm_num)
    (by norm_num [classify, freezing, low_walk, dysk_present, fog_ratio,
      FOG_RATIO_THRESH, FOG_EPS, WALK_THRESH, DYSK_THRESH])

/-- C4: a band energy exactly at its detection threshold does not count as
present, and walk exactly at its threshold does not count as low — all three
comparisons are strict. -/
theorem threshold_strictness (e : BandEnergySet) :
    (e.tremor = TREMOR_THRESH → tremor_present e = false) ∧
    (e.dysk = DYSK_THRESH → dysk_present e = false) ∧
    (e.walk = WALK_THRESH → low_walk e = false) := by
  refine ⟨fun h => ?_, fun h => ?_, fun h => ?_⟩ <;>
    simp [tremor_present, dysk_present, low_walk, h,
      TREMOR_THRESH, DYSK_THRESH, WALK_THRESH]

/-- Witness for C4 at the energy set whose walk, tremor and dysk energies
all sit exactly on the shared threshold 5. -/
theorem threshold_strictness_witness :
    tremor_present ⟨5, 0, 5, 5⟩ = false ∧ dysk_present ⟨5, 0, 5, 5⟩ = false ∧
      low_walk ⟨5, 0, 5, 5⟩ = false :=
  ⟨(threshold_strictness ⟨5, 0, 5, 5⟩).1 rfl,
   (threshold_strictness ⟨5, 0, 5, 5⟩).2.1 rfl,
   (threshold_strictness ⟨5, 0, 5, 5⟩).2.2 rfl⟩

/-- C6: for nonnegative walk and fog energies the fog-ratio divisor
`walk + ε` is strictly positive (the division is never by zero) and the
ratio itself is nonnegative. -/
theorem fog_ratio_safe (e : BandEnergySet) (hw : 0 ≤ e.walk) (hf : 0 ≤ e.fog) :
    0 < e.walk + FOG_EPS ∧ 0 ≤ fog_ratio e := by
  have hpos : 0 < e.walk + FOG_EPS := by
    have : (0 : ℚ) < FOG_EPS := by norm_num [FOG_EPS]
    linarith
  exact ⟨hpos, div_nonneg hf hpos.le⟩

/-- Witness for C6 at the all-zero energy set. -/
theorem fog_ratio_safe_witness :
    0 < (0 : ℚ) + FOG_EPS ∧ 0 ≤ fog_ratio ⟨0, 0, 0, 0⟩ :=
  fog_ratio_safe ⟨0, 0, 0, 0⟩ (by norm_num) (by norm_num)

/-- C7: subtracting the window mean from every sample yields a window whose
mean is exactly zero in the rational embedding. -/
theorem detrend_mean_zero (buf : Fin RAW_SAMPLES → ℚ) : mean (detrend buf) = 0 := by
  unfold mean detrend
  rw [Finset.sum_sub_distrib, Finset.sum_const, Finset.card_univ, Fintype.card_fin,
    nsmul_eq_mul]
  unfold mean
  rw [mul_div_cancel₀ _ (by norm_num [RAW_SAMPLES, SAMPLE_RATE, WINDOW_SEC] : (RAW_SAMPLES : ℚ) ≠ 0)]
  simp

/-- C8: from any in-range write cursor, one ingest step leaves the cursor in
range and its increment-then-reset update equals addition of 1 modulo the
capacity RAW_SAMPLES. -/
theorem ring_cursor_wraps (st : IngestState) (amag gmag : ℚ)
    (h : st.buf_idx < RAW_SAMPLES) :
    (ingestStep st amag gmag).buf_idx < RAW_SAMPLES ∧
      (ingestStep st amag gmag).buf_idx = (st.buf_idx + 1) % RAW_SAMPLES := by
  unfold ingestStep nextIdx RAW_SAMPLES SAMPLE_RATE WINDOW_SEC at *
  constructor <;> (simp only []; split <;> omega)

/-- Witness for C8 at cursor 155 (= capacity - 1), where the step wraps to 0. -/
theorem ring_cursor_wraps_witness :
    (ingestStep ⟨fun _ => 0, fun _ => 0, 155⟩ 0 0).buf_idx < RAW_SAMPLES ∧
      (ingestStep ⟨fun _ => 0, fun _ => 0, 155⟩ 0 0).buf_idx = (155 + 1) % RAW_SAMPLES :=
  ring_cursor_wraps ⟨fun _ => 0, fun _ => 0, 155⟩ 0 0 (by norm_num [RAW_SAMPLES, SAMPLE_RATE, WINDOW_SEC])

/-- C9: register read failures are never checked — `read_axis` returns the
same value whether or not the reads succeeded, that value always lies in the
16-bit signed range, and every tick writes both channel buffers at the
cursor unconditionally (there is no error branch). -/
theorem sensor_failure_unchecked :
    (∀ env : ℕ → RegRead, ∀ la : ℕ, read_axis env la = read_axis (forceOk env) la) ∧
    (∀ env : ℕ → RegRead, ∀ la : ℕ, -32768 ≤ read_axis env la ∧ read_axis env la < 32768) ∧
    (∀ st : IngestState, ∀ amag gmag : ℚ,
      (ingestStep st amag gmag).accel_buf st.buf_idx = amag ∧
        (ingestStep st amag gmag).gyro_buf st.buf_idx = gmag) := by
  refine ⟨fun env la => rfl, fun env la => ?_, fun st amag gmag => ?_⟩
  · unfold read_axis toInt16
    split <;> omega
  · exact ⟨Function.update_same _ _ _, Function.update_same _ _ _⟩

/-- The Scenario D style window: walk 1 (low), fog 100 (huge fog ratio),
tremor 0, dysk 10 (dyskinesia energy past threshold). -/
def scenD : BandEnergySet := ⟨1, 100, 0, 10⟩

/-- C2 counterexample: on a window with fog ratio above threshold, low walk,
and dyskinesia energy above threshold, the code does NOT output
freezing = true with the dyskinesia flag vetoed; `!dysk_present` is part of
the freezing rule itself, so freezing is false and the dyskinesia flag
fires. -/
theorem scenarioD_counterexample :
    FOG_RATIO_THRESH < fog_ratio scenD ∧ low_walk scenD = true ∧
      dysk_present scenD = true ∧
      ¬((classify scenD).freezingFlag = true ∧ (classify scenD).dyskinesiaFlag = false) := by
  have hdp : dysk_present scenD = true := by
    norm_num [dysk_present, scenD, DYSK_THRESH]
  have hfz : freezing scenD = false := by
    simp [freezing, hdp]
  refine ⟨?_, ?_, hdp, ?_⟩
  · norm_num [fog_ratio, scenD, FOG_RATIO_THRESH, FOG_EPS]
  · norm_num [low_walk, scenD, WALK_THRESH]
  · unfold classify
    rw [hfz]
    simp

/-- C2 amended: when the fog ratio exceeds its threshold, walk is low, and
dysk is present, the freezing rule does not fire (dysk presence vetoes
freezing, not the other way round) and the dyskinesia flag follows the
dominance rule alone. -/
theorem scenarioD_amended (e : BandEnergySet)
    (h1 : FOG_RATIO_THRESH < fog_ratio e) (h2 : low_walk e = true)
    (h3 : dysk_present e = true) :
    (classify e).freezingFlag = false ∧
      ((classify e).dyskinesiaFlag = true ↔ e.tremor * DOMINANCE < e.dysk) := by
  have hfz : freezing e = false := by
    simp [freezing, h3]
  unfold classify
  rw [hfz]
  simp [h2, h3]

/-- Witness for C2 (amended) at the concrete Scenario D window, where the
dyskinesia flag in fact turns on. -/
theorem scenarioD_amended_witness :
    (classify scenD).freezingFlag = false ∧
      ((classify scenD).dyskinesiaFlag = true ↔ scenD.tremor * DOMINANCE < scenD.dysk) :=
  scenarioD_amended scenD
    (by norm_num [fog_ratio, scenD, FOG_RATIO_THRESH, FOG_EPS])
    (by norm_num [low_walk, scenD, WALK_THRESH])
    (by norm_num [dysk_present, scenD, DYSK_THRESH])

/-- C3: the band extractor sums only bins in [1, FFT_SIZE/2) — the energies
depend on no magnitude outside that index range, DC bin included — adjacent
bands of one channel never both accept a frequency, exactly 3 Hz counts to
walk and not fog, and exactly 5 Hz counts to tremor and not dyskinesia. -/
theorem band_extractor_partition :
    (∀ mag mag2 : ℕ → ℚ, (∀ k ∈ Finset.Ico 1 (FFT_SIZE / 2), mag k = mag2 k) →
        walk_energy mag = walk_energy mag2 ∧ fog_energy mag = fog_energy mag2 ∧
        tremor_energy mag = tremor_energy mag2 ∧ dysk_energy mag = dysk_energy mag2) ∧
    (∀ f : ℚ, ¬(inWalkBand f = true ∧ inFogBand f = true)) ∧
    (∀ f : ℚ, ¬(inTremorBand f = true ∧ inDyskBand f = true)) ∧
    (inWalkBand 3 = true ∧ inFogBand 3 = false) ∧
    (inTremorBand 5 = true ∧ inDyskBand 5 = false) := by
  refine ⟨?_, ?_, ?_, ⟨?_, ?_⟩, ⟨?_, ?_⟩⟩
  · intro mag mag2 h
    exact ⟨Finset.sum_congr rfl fun k hk => by rw [h k hk],
      Finset.sum_congr rfl fun k hk => by rw [h k hk],
      Finset.sum_congr rfl fun k hk => by rw [h k hk],
      Finset.sum_congr rfl fun k hk => by rw [h k hk]⟩
  · intro f hc
    simp only [inWalkBand, inFogBand, Bool.and_eq_true, decide_eq_true_eq] at hc
    linarith [hc.1.2, hc.2.1]
  · intro f hc
    simp only [inTremorBand, inDyskBand, Bool.and_eq_true, decide_eq_true_eq] at hc
    linarith [hc.1.2, hc.2.1]
  · norm_num [inWalkBand]
  · norm_num [inFogBand]
  · norm_num [inTremorBand]
  · norm_num [inDyskBand]

/-- A constant spectrum. -/
def exMagA : ℕ → ℚ := fun _ => 1

/-- A spectrum agreeing with `exMagA` on [1, FFT_SIZE/2) but differing at
the DC bin and above the Nyquist range. -/
def exMagB : ℕ → ℚ := fun k => if k = 0 then 7 else if FFT_SIZE / 2 ≤ k then 9 else 1

/-- Witness for C3: the walk energy ignores the DC bin and all bins outside
[1, FFT_SIZE/2). -/
theorem band_extractor_partition_witness :
    walk_energy exMagA = walk_energy exMagB :=
  (band_extractor_partition.1 exMagA exMagB (by
    intro k hk
    rw [Finset.mem_Ico] at hk
    unfold exMagA exMagB
    rw [if_neg (by omega), if_neg (by omega)])).1

/-- C5: when tremor and dysk energies are exactly equal (and nonnegative),
neither dominance condition holds, and both the tremor and dyskinesia flags
come out false — in the freezing branch too, where the tremor flag tracks
`tremor_present` but that presence is excluded by the freezing rule's
`!dysk_present` conjunct. -/
theorem equal_tremor_dysk_no_flags (e : BandEnergySet)
    (hnn : 0 ≤ e.tremor) (heq : e.tremor = e.dysk) :
    ¬(e.dysk * DOMINANCE < e.tremor) ∧ ¬(e.tremor * DOMINANCE < e.dysk) ∧
      (classify e).tremorFlag = false ∧ (classify e).dyskinesiaFlag = false := by
  obtain ⟨w, f, t, d⟩ := e
  have ht : t = d := heq
  subst ht
  have h0 : (0 : ℚ) ≤ t := hnn
  have hdom : ¬(t * DOMINANCE < t) := by
    unfold DOMINANCE
    intro h
    linarith
  refine ⟨hdom, hdom, ?_⟩
  unfold classify
  split
  · next hfz =>
    simp only [freezing, low_walk, dysk_present, Bool.and_eq_true, Bool.not_eq_eq_eq_not,
      Bool.not_true, decide_eq_true_eq, decide_eq_false_iff_not] at hfz
    constructor
    · simpa [tremor_present, TREMOR_THRESH] using hfz.2
    · rfl
  · simp [hdom]

/-- Witness for C5 at the energy set (0, 1, 2, 2), whose window freezes while
tremor equals dysk. -/
theorem equal_tremor_dysk_no_flags_witness :
    ¬((BandEnergySet.mk 0 1 2 2).dysk * DOMINANCE < (BandEnergySet.mk 0 1 2 2).tremor) ∧
      ¬((BandEnergySet.mk 0 1 2 2).tremor * DOMINANCE < (BandEnergySet.mk 0 1 2 2).dysk) ∧
      (classify ⟨0, 1, 2, 2⟩).tremorFlag = false ∧
      (classify ⟨0, 1, 2, 2⟩).dyskinesiaFlag = false :=
  equal_tremor_dysk_no_flags ⟨0, 1, 2, 2⟩ (by norm_num) rfl

/-- C10: for nonnegative band energies the two strict dominance conditions
exclude each other, and the tremor and dyskinesia flags are never both on:
the freezing branch holds the dyskinesia flag off, and the non-freezing
branch would need both dominance conditions at once. -/
theorem flags_mutually_exclusive (e : BandEnergySet)
    (ht : 0 ≤ e.tremor) (hd : 0 ≤ e.dysk) :
    ¬(e.dysk * DOMINANCE < e.tremor ∧ e.tremor * DOMINANCE < e.dysk) ∧
      ¬((classify e).tremorFlag = true ∧ (classify e).dyskinesiaFlag = true) := by
  have hdom : ¬(e.dysk * DOMINANCE < e.tremor ∧ e.tremor * DOMINANCE < e.dysk) := by
    unfold DOMINANCE
    rintro ⟨h1, h2⟩
    linarith
  refine ⟨hdom, ?_⟩
  unfold classify
  split
  · simp
  · rintro ⟨h1, h2⟩
    simp only [Bool.and_eq_true, decide_eq_true_eq] at h1 h2
    exact hdom ⟨h1.2, h2.2⟩

/-- Witness for C10 at the energy set (3, 1, 4, 4). -/
theorem flags_mutually_exclusive_witness :
    ¬((BandEnergySet.mk 3 1 4 4).dysk * DOMINANCE < (BandEnergySet.mk 3 1 4 4).tremor ∧
        (BandEnergySet.mk 3 1 4 4).tremor * DOMINANCE < (BandEnergySet.mk 3 1 4 4).dysk) ∧
      ¬((classify ⟨3, 1, 4, 4⟩).tremorFlag = true ∧
        (classify ⟨3, 1, 4, 4⟩).dyskinesiaFlag = true) :=
  flags_mutually_exclusive ⟨3, 1, 4, 4⟩ (by norm_num) (by norm_num)

end Parkinson
